import Mathlib

/-!
# CredLyse backend: shallow embedding of the content-analysis pipeline and
# the certificate issuance workflow

This file embeds, in Lean 4, the core logic of the CredLyse backend:

* `app/services/ai_service.py` — transcript fetching (`fetch_transcript`),
  primary quiz inference (`generate_quiz_with_openai`), fallback inference
  (`generate_quiz_with_gemini`), and the orchestrating pipeline
  (`analyze_video_content`);
* `app/services/processing_service.py` — the batch processor
  (`process_course_content`) that walks pending videos and persists outcomes;
* `app/services/certificate_service.py` — eligibility checking
  (`check_eligibility`) and idempotent certificate issuance
  (`issue_certificate`).

External effects (YouTube transcript API, OpenAI, Gemini, PDF rendering,
Cloudinary upload, the SQL database) are modelled as explicit oracle
parameters and an explicit database state; Python exceptions are modelled
with `Except`/`Option`, and Python truthiness of optional strings and dicts
is modelled explicitly.
-/

namespace CredLyse

/-- Python truthiness of an `Optional[str]`: `None` and `""` are falsy,
any non-empty string is truthy. -/
def strTruthy : Option String → Bool
  | none => false
  | some s => !(s == "")

/-! ## Python `str.strip()`

`fetch_transcript` returns `transcript_text.strip() if transcript_text.strip()
else None`.  We model `str.strip()` as dropping leading and trailing
whitespace characters from the character list of the string. -/

/-- Drop leading and trailing whitespace from a character list
(the semantics of Python `str.strip()` restricted to ASCII whitespace). -/
def pyStripList (l : List Char) : List Char :=
  (l.dropWhile Char.isWhitespace).rdropWhile Char.isWhitespace

/-- Python `str.strip()` on strings. -/
def pyStrip (s : String) : String :=
  String.mk (pyStripList s.data)

/-! ## `fetch_transcript` (ai_service.py, lines 34–68)

The real function consults the YouTube transcript API: first a fetch with
preferred languages, then — if that raises — a listing fallback taking the
first available transcript; any exception from either stage, or from the
outer body, is caught and converted to `None`.  We model the two external
stages as an environment carrying their results (`Except` = result or
raised exception); each segment contributes its `text` field. -/

structure TranscriptEnv where
  /-- Result of `ytt_api.fetch(video_id, languages=[...])`: the segment
  texts, or the exception it raised. -/
  preferred : Except String (List String)
  /-- Result of `ytt_api.list(video_id)` followed by fetching the first
  available transcript, or the exception raised along that path. -/
  fallbackList : Except String (List String)

/-- Model of `fetch_transcript`: all exceptions become `none`; segment texts are
joined with `" "`, stripped, and an empty strip result becomes `none`. -/
def fetch_transcript (env : TranscriptEnv) : Option String :=
  let segs? : Option (List String) :=
    match env.preferred with
    | .ok segs => some segs
    | .error _ =>
      match env.fallbackList with
      | .ok segs => some segs
      | .error _ => none
  match segs? with
  | none => none
  | some segs =>
    let text := String.intercalate " " segs
    if pyStrip text == "" then none else some (pyStrip text)

/-! ## Quiz payloads

The inference backends answer with JSON of shape
`{"has_quiz": bool, "reason": str, "questions": [...]}`.  Both
`generate_quiz_with_openai` and `generate_quiz_with_gemini` apply
`setdefault` for the three keys after parsing, so missing keys get
defaults; `analyze_video_content`'s fallback branch additionally writes an
`analysis_method` key. -/

structure Question where
  q : String
  options : List String
  answer : String
deriving Repr, DecidableEq

structure QuizData where
  has_quiz : Bool
  reason : String
  questions : List Question
  analysis_method : Option String := none
deriving Repr, DecidableEq

/-- A parsed backend response before the `setdefault` normalization:
each of the three keys may be missing. -/
structure RawQuiz where
  has_quiz : Option Bool := none
  reason : Option String := none
  questions : Option (List Question) := none
deriving Repr, DecidableEq

/-- The three `setdefault` calls applied to a parsed response. -/
def applyDefaults (r : RawQuiz) : QuizData :=
  { has_quiz := r.has_quiz.getD false
    reason := r.reason.getD "Unknown"
    questions := r.questions.getD [] }

/-! ## Configuration

`settings.OPENAI_API_KEY` / `settings.GEMINI_API_KEY`, tested with Python
truthiness (`if not settings...`). -/

structure Config where
  OPENAI_API_KEY : Option String
  GEMINI_API_KEY : Option String

/-! ## `generate_quiz_with_openai` (ai_service.py, lines 99–140)

`get_openai_client()` raises `ValueError` when no key is configured (before
any backend call); otherwise the transcript, truncated to `max_chars`, is
sent to the backend, whose parsed JSON answer is normalized with
`setdefault`.  Transport and JSON errors are re-raised (`raise` in the
`except` block).  The backend (one chat-completion round trip plus
`json.loads`) is an oracle from the sent text to a parsed response or an
exception.  The returned `Bool` records whether the backend was
actually consulted. -/

def max_chars : Nat := 12000

/-- The truncation applied before the primary backend call:
`transcript[:max_chars] + "... [truncated]"` when over budget. -/
def truncate_transcript (transcript : String) : String :=
  if transcript.length > max_chars then
    (transcript.take max_chars) ++ "... [truncated]"
  else transcript

def generate_quiz_with_openai (cfg : Config)
    (backend : String → Except String RawQuiz) (transcript : String) :
    Except String QuizData × Bool :=
  if !strTruthy cfg.OPENAI_API_KEY then
    (.error "OPENAI_API_KEY not configured", false)
  else
    match backend (truncate_transcript transcript) with
    | .error e => (.error e, true)
    | .ok raw => (.ok (applyDefaults raw), true)

/-! ## `generate_quiz_with_gemini` (ai_service.py, lines 145–233)

When `GEMINI_API_KEY` is falsy the function returns (not raises) a
`has_quiz=false` dict with a fixed reason, without touching the backend.
Otherwise the whole body is guarded: an exception anywhere yields a
`"Gemini analysis failed: ..."` dict; a response whose embedded JSON cannot
be parsed yields a `"Failed to parse AI response"` dict; a parsed response
is normalized with `setdefault`.  The function never raises.  The oracle
summarises the backend round trip together with the regex extraction and
`json.loads` of its free-form answer. -/

inductive GeminiResponse where
  /-- The LangChain call (or anything else in the `try` body) raised. -/
  | apiError (msg : String)
  /-- A response was obtained but no JSON object could be parsed from it. -/
  | unparseable
  /-- A response was obtained and a JSON object was parsed from it. -/
  | parsed (r : RawQuiz)
deriving Repr, DecidableEq

def gemini_unavailable_reason : String :=
  "Transcript unavailable and Gemini fallback not configured"

def generate_quiz_with_gemini (cfg : Config) (backend : GeminiResponse) :
    QuizData × Bool :=
  if !strTruthy cfg.GEMINI_API_KEY then
    ({ has_quiz := false, reason := gemini_unavailable_reason, questions := [] },
     false)
  else
    match backend with
    | .apiError e =>
      ({ has_quiz := false, reason := "Gemini analysis failed: " ++ e,
         questions := [] }, true)
    | .unparseable =>
      ({ has_quiz := false, reason := "Failed to parse AI response",
         questions := [] }, true)
    | .parsed r => (applyDefaults r, true)

/-! ## `analyze_video_content` (ai_service.py, lines 238–291)

The result dict of the pipeline. -/

structure AnalysisResult where
  success : Bool
  transcript : Option String
  has_quiz : Bool
  quiz_data : Option QuizData
  error : Option String
  method : Option String
deriving Repr, DecidableEq

/-- The environment of one `analyze_video_content` call: the configuration,
the transcript-fetch result, and the two backend oracles. -/
structure AnalyzeEnv where
  cfg : Config
  /-- The value returned by `fetch_transcript(video_id)`. -/
  fetched : Option String
  openaiBackend : String → Except String RawQuiz
  geminiBackend : GeminiResponse

/-- The pipeline's result together with which backends were consulted. -/
structure AnalyzeOutput where
  result : AnalysisResult
  openai_called : Bool
  gemini_called : Bool

def analyze_video_content (env : AnalyzeEnv) : AnalyzeOutput :=
  let base : AnalysisResult :=
    { success := false, transcript := none, has_quiz := false,
      quiz_data := none, error := none, method := none }
  if strTruthy env.fetched then
    -- Step 2a: primary path (OpenAI on the transcript).
    let t := env.fetched.getD ""
    let r1 := { base with transcript := some t, method := some "openai" }
    let out := generate_quiz_with_openai env.cfg env.openaiBackend t
    match out.1 with
    | .ok qd =>
      { result := { r1 with has_quiz := qd.has_quiz, quiz_data := some qd,
                            success := true }
        openai_called := out.2, gemini_called := false }
    | .error e =>
      { result := { r1 with error := some ("OpenAI analysis failed: " ++ e) }
        openai_called := out.2, gemini_called := false }
  else
    -- Step 2b: fallback path (Gemini direct video analysis).
    let r1 := { base with transcript := none, method := some "gemini" }
    let out := generate_quiz_with_gemini env.cfg env.geminiBackend
    let qd := out.1
    -- `generate_quiz_with_gemini` never raises, so `success` is always set
    -- and the `except` branch of the caller is unreachable; the returned
    -- dict is non-empty hence truthy, so the `analysis_method` tag is set.
    { result := { r1 with has_quiz := qd.has_quiz,
                          quiz_data := some { qd with analysis_method := some "video_analysis" },
                          success := true }
      openai_called := false, gemini_called := out.2 }

/-! ## Data model (app/models)

Videos, enrollments, progress records, certificates and playlists, with
UUIDs and timestamps modelled as `Nat`. -/

inductive AnalysisStatus where
  | PENDING
  | COMPLETED
  | FAILED
deriving Repr, DecidableEq

structure Video where
  id : Nat
  playlist_id : Nat
  youtube_video_id : String
  title : String
  duration_seconds : Nat
  analysis_status : AnalysisStatus
  transcript_text : Option String
  has_quiz : Bool
  quiz_data : Option QuizData
deriving Repr, DecidableEq

inductive WatchStatus where
  | NOT_STARTED
  | IN_PROGRESS
  | WATCHED
deriving Repr, DecidableEq

structure Enrollment where
  id : Nat
  user_id : Nat
  playlist_id : Nat
  is_completed : Bool
  certificate_url : Option String
deriving Repr, DecidableEq

structure VideoProgress where
  enrollment_id : Nat
  video_id : Nat
  watch_status : WatchStatus
  is_quiz_passed : Bool
deriving Repr, DecidableEq

structure Certificate where
  id : Nat
  user_id : Nat
  playlist_id : Nat
  issued_at : Nat
  pdf_url : Option String
deriving Repr, DecidableEq

structure Playlist where
  id : Nat
  title : String
deriving Repr, DecidableEq

structure User where
  id : Nat
  full_name : String
deriving Repr, DecidableEq

/-- The relational state the certificate workflow reads and writes. -/
structure DB where
  playlists : List Playlist
  videos : List Video
  enrollments : List Enrollment
  progress : List VideoProgress
  certificates : List Certificate
deriving Repr, DecidableEq

/-! ## `process_course_content` (processing_service.py, lines 18–152)

Per pending video the service calls `ai_service.analyze_video_content`
inside a `try`, and on its result applies the persistable-success rule
(lines 96–129); any exception from the call — note that the source passes a
`duration_seconds=` keyword the pipeline's signature does not accept, which
raises `TypeError` at call time — is caught at lines 131–137 and the video
is marked FAILED with `quiz_data = None`.  We model the per-video analysis
call as an oracle `Video → Except String AnalysisResult` (`.error` = the
call raised). -/

/-- Validity check `has_valid_quiz` (lines 99–103): Python
`quiz_data and quiz_data.get("has_quiz") and len(quiz_data.get("questions", [])) > 0`;
a present quiz dict is non-empty hence truthy. -/
def has_valid_quiz : Option QuizData → Bool
  | none => false
  | some q => q.has_quiz && decide (q.questions.length > 0)

/-- Lines 86–137: the new state of one pending video given the outcome of
its analysis call. -/
def apply_analysis (analysis : Except String AnalysisResult) (v : Video) :
    Video :=
  match analysis with
  | .error _ =>
    { v with analysis_status := .FAILED, quiz_data := none }
  | .ok a =>
    if a.success then
      if strTruthy a.transcript || has_valid_quiz a.quiz_data then
        { v with transcript_text := a.transcript
                 has_quiz := has_valid_quiz a.quiz_data
                 quiz_data := if has_valid_quiz a.quiz_data then a.quiz_data
                              else none
                 analysis_status := .COMPLETED }
      else
        { v with analysis_status := .FAILED, quiz_data := none }
    else
      { v with analysis_status := .FAILED, quiz_data := none }

/-- The batch over a course's video list: the `SELECT ... WHERE
analysis_status = PENDING` picks exactly the PENDING videos, each of which
is rewritten by `apply_analysis`; every other video row is untouched. -/
def process_course_content (analyze : Video → Except String AnalysisResult)
    (videos : List Video) : List Video :=
  videos.map fun v =>
    if v.analysis_status == .PENDING then apply_analysis (analyze v) v else v

/-! ## `check_eligibility` (certificate_service.py, lines 28–98) -/

/-- The progress dict `{p.video_id: p for p in progress_records}` followed
by `.get(video.id)`: with duplicate keys the later record wins, so lookup
finds the last matching record. -/
def progressLookup (records : List VideoProgress) (video_id : Nat) :
    Option VideoProgress :=
  records.reverse.find? (fun p => p.video_id == video_id)

def reason_not_started (title : String) : String :=
  "Video \x27" ++ title ++ "\x27 not started"

def reason_not_watched (title : String) : String :=
  "Video \x27" ++ title ++ "\x27 not fully watched"

def reason_quiz_not_passed (title : String) : String :=
  "Video \x27" ++ title ++ "\x27 quiz not passed"

/-- Lines 82–93: the reasons one video contributes.  A missing record
contributes exactly one reason (the loop `continue`s); otherwise the
watch-status check and the quiz check each contribute independently. -/
def videoReasons (lookup : Nat → Option VideoProgress) (v : Video) :
    List String :=
  match lookup v.id with
  | none => [reason_not_started v.title]
  | some p =>
    (if p.watch_status != WatchStatus.WATCHED then [reason_not_watched v.title]
     else []) ++
    (if !p.is_quiz_passed then [reason_quiz_not_passed v.title] else [])

def check_eligibility (user_id playlist_id : Nat) (db : DB) :
    Bool × List String :=
  match db.enrollments.find?
      (fun e => e.user_id == user_id && e.playlist_id == playlist_id) with
  | none => (false, ["User is not enrolled in this course"])
  | some enrollment =>
    let videos := db.videos.filter (fun v => v.playlist_id == playlist_id)
    if videos.isEmpty then (false, ["Course has no videos"])
    else
      let records := db.progress.filter
        (fun p => p.enrollment_id == enrollment.id)
      let missing := videos.foldl
        (fun acc v => acc ++ videoReasons (progressLookup records) v) []
      if !missing.isEmpty then (false, missing) else (true, [])

/-! ## `issue_certificate` (certificate_service.py, lines 172–255)

The render-and-upload pair (`generate_certificate_pdf` →
`_generate_and_upload_certificate` → `PdfGenerator` + `CloudinaryService`)
is one oracle yielding a URL or an exception.  `db.add(certificate)` only
stages the row in the session; with no `commit`, an exception propagating
out of the function leaves the database untouched (the session is rolled
back by the request scope), so the model applies all mutations only on the
success path.  The flags record whether eligibility was evaluated and
whether the renderer/uploader was invoked. -/

inductive IssueOutcome where
  /-- The function returned a certificate. -/
  | issued (c : Certificate)
  /-- An `HTTPException(400)` carrying the `missing_requirements` list. -/
  | ineligible (missing : List String)
  /-- An exception propagated (render/upload failure, or the
  `AttributeError` from `playlist.title` when the playlist row is gone). -/
  | error (msg : String)
deriving Repr, DecidableEq

structure IssueResult where
  db : DB
  outcome : IssueOutcome
  eligibility_checked : Bool
  render_invoked : Bool
deriving Repr, DecidableEq

def issue_certificate (renderUpload : Except String String) (user : User)
    (playlist_id : Nat) (fresh_id : Nat) (now : Nat) (db : DB) :
    IssueResult :=
  -- 1. Check existing certificate (idempotency).
  match db.certificates.find?
      (fun c => c.user_id == user.id && c.playlist_id == playlist_id) with
  | some existing =>
    { db := db, outcome := .issued existing,
      eligibility_checked := false, render_invoked := false }
  | none =>
    -- 2. Check eligibility (strict).
    if !(check_eligibility user.id playlist_id db).1 then
      { db := db,
        outcome := .ineligible (check_eligibility user.id playlist_id db).2,
        eligibility_checked := true, render_invoked := false }
    else
      match db.playlists.find? (fun p => p.id == playlist_id) with
      | none =>
        { db := db,
          outcome := .error "AttributeError: NoneType has no attribute title",
          eligibility_checked := true, render_invoked := false }
      | some _playlist =>
        -- 3. Create the Certificate record (staged, not committed).
        let cert : Certificate :=
          { id := fresh_id, user_id := user.id, playlist_id := playlist_id,
            issued_at := now, pdf_url := none }
        -- 4. Generate the PDF and upload.
        match renderUpload with
        | .error e =>
          { db := db, outcome := .error e,
            eligibility_checked := true, render_invoked := true }
        | .ok url =>
          -- 5. Attach the URL, update the enrollment, commit.
          let cert2 := { cert with pdf_url := some url }
          let db2 : DB :=
            { db with
              certificates := db.certificates ++ [cert2]
              enrollments := db.enrollments.map fun e =>
                if e.user_id == user.id && e.playlist_id == playlist_id then
                  { e with is_completed := true, certificate_url := some url }
                else e }
          { db := db2, outcome := .issued cert2,
            eligibility_checked := true, render_invoked := true }

/-! # Theorems -/

/-- A string returned by `pyStrip` that is non-empty contains a
non-whitespace character (its last one). -/
theorem pyStrip_ne_empty_has_content (s : String) (h : pyStrip s ≠ "") :
    ∃ c ∈ (pyStrip s).data, c.isWhitespace = false := by
  have hne : pyStripList s.data ≠ [] := by
    intro hnil
    exact h (by simp [pyStrip, hnil])
  have hlast := List.rdropWhile_last_not
    (p := Char.isWhitespace) (l := s.data.dropWhile Char.isWhitespace)
    (by simpa [pyStripList] using hne)
  refine ⟨(pyStripList s.data).getLast (by simpa [pyStripList] using hne), ?_, ?_⟩
  · exact List.getLast_mem _
  · simpa [pyStripList] using hlast

/-- C10: for every environment (every behaviour of the two transcript-API
stages), `fetch_transcript` returns `none` on all failure paths — exceptions
never escape — and every returned transcript is a non-empty string that is
not whitespace-only (so it stays non-empty after trimming). -/
theorem fetch_transcript_total_nonempty (env : TranscriptEnv) (t : String)
    (h : fetch_transcript env = some t) :
    t ≠ "" ∧ ∃ c ∈ t.data, c.isWhitespace = false := by
  have key : ∀ segs : List String,
      (if pyStrip (String.intercalate " " segs) == "" then none
        else some (pyStrip (String.intercalate " " segs))) = some t →
      t ≠ "" ∧ ∃ c ∈ t.data, c.isWhitespace = false := by
    intro segs hseg
    split at hseg
    · exact absurd hseg (by simp)
    · rename_i hcond
      have hne : pyStrip (String.intercalate " " segs) ≠ "" := by
        simpa using hcond
      obtain rfl := Option.some.inj hseg
      exact ⟨hne, pyStrip_ne_empty_has_content _ hne⟩
  unfold fetch_transcript at h
  cases hp : env.preferred with
  | ok segs =>
    rw [hp] at h
    exact key segs h
  | error e =>
    rw [hp] at h
    cases hq : env.fallbackList with
    | ok segs =>
      rw [hq] at h
      exact key segs h
    | error e2 =>
      rw [hq] at h
      simp at h

/-- C10 witness: a concrete environment whose transcript API yields one
segment `"hello"`; the fetch returns it and it is non-empty and not
whitespace-only. -/
theorem fetch_transcript_total_nonempty_witness :
    fetch_transcript ⟨.ok ["hello"], .error "unused"⟩ = some "hello" ∧
    ("hello" ≠ "" ∧ ∃ c ∈ "hello".data, c.isWhitespace = false) :=
  ⟨by decide, fetch_transcript_total_nonempty ⟨.ok ["hello"], .error "unused"⟩
    "hello" (by decide)⟩

/-- C8: when a key is configured, the primary inference call consults the
backend exactly at `truncate_transcript transcript`; a transcript longer
than the budget is sent as its first `max_chars` characters followed by the
truncation marker, and a transcript at or under the budget is sent
unchanged. -/
theorem generate_quiz_with_openai_truncates (cfg : Config)
    (backend : String → Except String RawQuiz) (transcript : String)
    (hkey : strTruthy cfg.OPENAI_API_KEY = true) :
    generate_quiz_with_openai cfg backend transcript =
      ((backend (truncate_transcript transcript)).map applyDefaults, true) ∧
    (transcript.length > max_chars →
      truncate_transcript transcript =
        (transcript.take max_chars) ++ "... [truncated]") ∧
    (transcript.length ≤ max_chars →
      truncate_transcript transcript = transcript) := by
  refine ⟨?_, ?_, ?_⟩
  · unfold generate_quiz_with_openai
    rw [hkey]
    simp only [Bool.not_true, Bool.false_eq_true, if_false]
    cases backend (truncate_transcript transcript) <;> simp [Except.map]
  · intro h
    unfold truncate_transcript
    rw [if_pos h]
  · intro h
    unfold truncate_transcript
    rw [if_neg (by omega)]

/-- C8 witness: with a configured key and a concrete backend, the call on a
short transcript consults the backend at the (unchanged) transcript. -/
theorem generate_quiz_with_openai_truncates_witness :
    strTruthy (some "sk-test") = true ∧
    generate_quiz_with_openai ⟨some "sk-test", none⟩ (fun _ => .ok {}) "abc" =
      (((fun _ => (.ok {} : Except String RawQuiz))
          (truncate_transcript "abc")).map applyDefaults, true) :=
  ⟨rfl, (generate_quiz_with_openai_truncates ⟨some "sk-test", none⟩
    (fun _ => .ok {}) "abc" rfl).1⟩

/-- A concrete pipeline environment: no transcript was retrievable and the
Gemini fallback key is not configured. -/
def envNoFallback : AnalyzeEnv :=
  { cfg := { OPENAI_API_KEY := some "sk-test", GEMINI_API_KEY := none }
    fetched := none
    openaiBackend := fun _ => .error "unused"
    geminiBackend := .apiError "unused" }

/-- C3 counterexample: with no transcript and the fallback backend not
configured, the pipeline's outcome has `success = true` (the claimed
`success = false` is what the code does NOT do); the unavailability reason
is carried inside the quiz payload instead. -/
theorem analyze_no_fallback_success_true :
    envNoFallback.fetched = none ∧
    strTruthy envNoFallback.cfg.GEMINI_API_KEY = false ∧
    (analyze_video_content envNoFallback).result.success = true ∧
    (analyze_video_content envNoFallback).result.quiz_data =
      some { has_quiz := false, reason := gemini_unavailable_reason,
             questions := [], analysis_method := some "video_analysis" } := by
  refine ⟨rfl, rfl, rfl, rfl⟩

/-- C3 amended: for every video whose transcript retrieval yields nothing
and whose fallback key is not configured, the pipeline immediately returns
an outcome with `success = true`, `method = "gemini"`, no transcript, no
error, and a quiz payload with `has_quiz = false` carrying the reason that
the fallback is not configured; the fallback backend itself is never
invoked and there is no retry. -/
theorem analyze_no_fallback_outcome (env : AnalyzeEnv)
    (hf : strTruthy env.fetched = false)
    (hg : strTruthy env.cfg.GEMINI_API_KEY = false) :
    (analyze_video_content env).result =
      { success := true, transcript := none, has_quiz := false,
        quiz_data := some { has_quiz := false,
                            reason := gemini_unavailable_reason,
                            questions := [],
                            analysis_method := some "video_analysis" },
        error := none, method := some "gemini" } ∧
    (analyze_video_content env).gemini_called = false := by
  unfold analyze_video_content generate_quiz_with_gemini
  rw [hf, hg]
  exact ⟨rfl, rfl⟩

/-- C3 witness: the amended outcome at the concrete environment. -/
theorem analyze_no_fallback_outcome_witness :
    (strTruthy envNoFallback.fetched = false ∧
      strTruthy envNoFallback.cfg.GEMINI_API_KEY = false) ∧
    ((analyze_video_content envNoFallback).result =
      { success := true, transcript := none, has_quiz := false,
        quiz_data := some { has_quiz := false,
                            reason := gemini_unavailable_reason,
                            questions := [],
                            analysis_method := some "video_analysis" },
        error := none, method := some "gemini" } ∧
    (analyze_video_content envNoFallback).gemini_called = false) :=
  ⟨⟨rfl, rfl⟩, analyze_no_fallback_outcome envNoFallback rfl rfl⟩

/-- C7: for every video with a non-empty transcript the pipeline takes the
primary path only: the fallback backend is never consulted, the outcome is
tagged `method = "openai"` and carries the transcript; and when the primary
call fails (raises), the outcome has `success = false` with the failure
reason in `error` — still without any fallback attempt. -/
theorem analyze_primary_only (env : AnalyzeEnv) (t : String)
    (hf : env.fetched = some t) (hne : t ≠ "") :
    (analyze_video_content env).gemini_called = false ∧
    (analyze_video_content env).result.method = some "openai" ∧
    (analyze_video_content env).result.transcript = some t ∧
    (∀ e, (generate_quiz_with_openai env.cfg env.openaiBackend t).1 = .error e →
      (analyze_video_content env).result.success = false ∧
      (analyze_video_content env).result.error =
        some ("OpenAI analysis failed: " ++ e)) := by
  have htruthy : strTruthy env.fetched = true := by
    rw [hf]
    simpa [strTruthy] using hne
  unfold analyze_video_content
  rw [htruthy]
  simp only [if_true]
  have hget : env.fetched.getD "" = t := by rw [hf]; rfl
  rw [hget]
  cases hout : (generate_quiz_with_openai env.cfg env.openaiBackend t).1 with
  | ok qd =>
    refine ⟨rfl, rfl, rfl, ?_⟩
    intro e he
    exact absurd he (by simp)
  | error e2 =>
    refine ⟨rfl, rfl, rfl, ?_⟩
    intro e he
    obtain rfl := Except.error.inj he
    exact ⟨rfl, rfl⟩

/-- C7 witness: a concrete environment with transcript `"hello"` and a
primary backend that raises `"boom"`. -/
def envPrimaryFail : AnalyzeEnv :=
  { cfg := { OPENAI_API_KEY := some "sk-test", GEMINI_API_KEY := some "g" }
    fetched := some "hello"
    openaiBackend := fun _ => .error "boom"
    geminiBackend := .parsed {} }

theorem analyze_primary_only_witness :
    (envPrimaryFail.fetched = some "hello" ∧ "hello" ≠ "") ∧
    ((analyze_video_content envPrimaryFail).gemini_called = false ∧
     (analyze_video_content envPrimaryFail).result.method = some "openai" ∧
     (analyze_video_content envPrimaryFail).result.transcript = some "hello" ∧
     (∀ e, (generate_quiz_with_openai envPrimaryFail.cfg
        envPrimaryFail.openaiBackend "hello").1 = .error e →
       (analyze_video_content envPrimaryFail).result.success = false ∧
       (analyze_video_content envPrimaryFail).result.error =
         some ("OpenAI analysis failed: " ++ e))) :=
  ⟨⟨rfl, by decide⟩, analyze_primary_only envPrimaryFail "hello" rfl (by decide)⟩

/-- Unfolding of `has_valid_quiz` into the claim's vocabulary. -/
theorem has_valid_quiz_iff (od : Option QuizData) :
    has_valid_quiz od = true ↔
      ∃ q, od = some q ∧ q.has_quiz = true ∧ 0 < q.questions.length := by
  cases od with
  | none => simp [has_valid_quiz]
  | some q =>
    simp only [has_valid_quiz, Bool.and_eq_true, decide_eq_true_eq]
    constructor
    · rintro ⟨h1, h2⟩
      exact ⟨q, rfl, h1, h2⟩
    · rintro ⟨q2, hq, h1, h2⟩
      obtain rfl := Option.some.inj hq
      exact ⟨h1, h2⟩

/-- A fresh pending video row. -/
def pendingVideo : Video :=
  { id := 1, playlist_id := 1, youtube_video_id := "yt1", title := "Intro",
    duration_seconds := 60, analysis_status := .PENDING,
    transcript_text := none, has_quiz := false, quiz_data := none }

/-- A successful fallback outcome with a one-question quiz and no
transcript: `success = true`, `has_quiz = true`, one question. -/
def oneQuestionOutcome : AnalysisResult :=
  { success := true, transcript := none, has_quiz := true
    quiz_data := some { has_quiz := true, reason := "ok"
                        questions := [{ q := "Q1"
                                        options := ["a", "b", "c", "d"]
                                        answer := "a" }] }
    error := none, method := some "gemini" }

/-- C1 counterexample: a pending video whose analysis succeeds with no
transcript and a `has_quiz = true` payload of exactly ONE question (not 5)
is marked COMPLETED by the batch processor, contradicting the claim that
only a transcript or an exactly-5-question payload yields COMPLETED. -/
theorem process_completed_with_one_question :
    oneQuestionOutcome.success = true ∧
    oneQuestionOutcome.transcript = none ∧
    (∀ q, oneQuestionOutcome.quiz_data = some q → q.questions.length = 1) ∧
    (process_course_content (fun _ => .ok oneQuestionOutcome)
        [pendingVideo]).map Video.analysis_status =
      [AnalysisStatus.COMPLETED] := by
  refine ⟨rfl, rfl, ?_, rfl⟩
  intro q hq
  obtain rfl := Option.some.inj hq.symm
  rfl

/-- C1 amended: for every pending video whose analysis outcome has
`success = true`, the batch processor marks the video COMPLETED if and only
if either a (truthy) transcript was retrieved or the parsed payload has
`has_quiz = true` with AT LEAST ONE question; in every other case it marks
the video FAILED with a `null` quiz field. -/
theorem process_success_persistable_rule
    (analyze : Video → Except String AnalysisResult) (videos : List Video)
    (i : Nat) (h1 : i < videos.length)
    (h2 : i < (process_course_content analyze videos).length)
    (a : AnalysisResult)
    (hp : videos[i].analysis_status = .PENDING)
    (ha : analyze videos[i] = .ok a)
    (hs : a.success = true) :
    ((process_course_content analyze videos)[i].analysis_status
        = .COMPLETED ↔
      (strTruthy a.transcript = true ∨
        ∃ q, a.quiz_data = some q ∧ q.has_quiz = true ∧
          0 < q.questions.length)) ∧
    (¬ (strTruthy a.transcript = true ∨
        ∃ q, a.quiz_data = some q ∧ q.has_quiz = true ∧
          0 < q.questions.length) →
      (process_course_content analyze videos)[i].analysis_status = .FAILED ∧
      (process_course_content analyze videos)[i].quiz_data = none) := by
  have hmap : (process_course_content analyze videos)[i] =
      apply_analysis (analyze videos[i]) videos[i] := by
    simp [process_course_content, List.getElem_map, hp]
  rw [hmap, ha]
  simp only [apply_analysis]
  rw [if_pos hs]
  by_cases hc : (strTruthy a.transcript || has_valid_quiz a.quiz_data) = true
  · rw [if_pos hc]
    rcases Bool.or_eq_true_iff.mp hc with ht | hq
    · constructor
      · simp
        exact Or.inl ht
      · intro hno
        exact absurd (Or.inl ht) hno
    · constructor
      · simp
        exact Or.inr ((has_valid_quiz_iff a.quiz_data).mp hq)
      · intro hno
        exact absurd (Or.inr ((has_valid_quiz_iff a.quiz_data).mp hq)) hno
  · rw [if_neg hc]
    have hno : ¬ (strTruthy a.transcript = true ∨
        ∃ q, a.quiz_data = some q ∧ q.has_quiz = true ∧
          0 < q.questions.length) := by
      rintro (ht | hq)
      · exact hc (Bool.or_eq_true_iff.mpr (Or.inl ht))
      · exact hc (Bool.or_eq_true_iff.mpr
          (Or.inr ((has_valid_quiz_iff a.quiz_data).mpr hq)))
    constructor
    · constructor
      · intro hstat
        exact absurd hstat (by simp)
      · intro hcase
        exact absurd hcase hno
    · intro _
      exact ⟨rfl, rfl⟩

/-- A successful primary outcome carrying a transcript and a 5-question
quiz. -/
def transcriptOutcome : AnalysisResult :=
  { success := true, transcript := some "a transcript", has_quiz := true
    quiz_data := some { has_quiz := true, reason := "ok"
                        questions := List.replicate 5
                          { q := "Q", options := ["a", "b", "c", "d"]
                            answer := "a" } }
    error := none, method := some "openai" }

/-- C1 witness: the amended rule applied at a concrete pending video whose
analysis succeeded with a transcript. -/
theorem process_success_persistable_rule_witness :
    (0 < [pendingVideo].length ∧
     0 < (process_course_content (fun _ => .ok transcriptOutcome)
        [pendingVideo]).length ∧
     [pendingVideo][0].analysis_status = .PENDING ∧
     (fun _ => (.ok transcriptOutcome : Except String AnalysisResult))
        [pendingVideo][0] = .ok transcriptOutcome ∧
     transcriptOutcome.success = true) ∧
    ((process_course_content (fun _ => .ok transcriptOutcome)
        [pendingVideo])[0].analysis_status = .COMPLETED ↔
      (strTruthy transcriptOutcome.transcript = true ∨
        ∃ q, transcriptOutcome.quiz_data = some q ∧ q.has_quiz = true ∧
          0 < q.questions.length)) :=
  ⟨⟨by decide, by decide, rfl, rfl, rfl⟩,
    (process_success_persistable_rule (fun _ => .ok transcriptOutcome)
      [pendingVideo] 0 (by decide) (by decide) transcriptOutcome
      rfl rfl rfl).1⟩

/-- Every run of `apply_analysis` ends in COMPLETED or FAILED, whatever the
analysis call produced (including a raised exception). -/
theorem apply_analysis_status (r : Except String AnalysisResult) (v : Video) :
    (apply_analysis r v).analysis_status = .COMPLETED ∨
    (apply_analysis r v).analysis_status = .FAILED := by
  cases r with
  | error e => exact Or.inr rfl
  | ok a =>
    simp only [apply_analysis]
    by_cases hs : a.success = true
    · rw [if_pos hs]
      by_cases hc : (strTruthy a.transcript || has_valid_quiz a.quiz_data)
          = true
      · rw [if_pos hc]
        exact Or.inl rfl
      · rw [if_neg hc]
        exact Or.inr rfl
    · rw [if_neg hs]
      exact Or.inr rfl

/-- C9: the batch processor is monotone on statuses: a video that is not
PENDING is left entirely unmodified (it is never selected), and a PENDING
video is always assigned COMPLETED or FAILED — also when its analysis call
raised — never left or put back to PENDING. -/
theorem process_course_content_monotone
    (analyze : Video → Except String AnalysisResult) (videos : List Video)
    (i : Nat) (h1 : i < videos.length)
    (h2 : i < (process_course_content analyze videos).length) :
    (videos[i].analysis_status ≠ .PENDING →
      (process_course_content analyze videos)[i] = videos[i]) ∧
    (videos[i].analysis_status = .PENDING →
      ((process_course_content analyze videos)[i].analysis_status
          = .COMPLETED ∨
       (process_course_content analyze videos)[i].analysis_status
          = .FAILED)) := by
  constructor
  · intro hnp
    have hbeq : (videos[i].analysis_status == AnalysisStatus.PENDING)
        = false := by
      simpa using hnp
    simp only [process_course_content, List.getElem_map, hbeq,
      Bool.false_eq_true, if_false]
  · intro hp
    have hmap : (process_course_content analyze videos)[i] =
        apply_analysis (analyze videos[i]) videos[i] := by
      simp [process_course_content, List.getElem_map, hp]
    rw [hmap]
    exact apply_analysis_status _ _

/-- A completed video row, used to show non-PENDING rows are untouched. -/
def completedVideo : Video :=
  { id := 2, playlist_id := 1, youtube_video_id := "yt2", title := "Done",
    duration_seconds := 60, analysis_status := .COMPLETED,
    transcript_text := some "t", has_quiz := false, quiz_data := none }

/-- C9 witness: in a batch of one COMPLETED and one PENDING video, the
COMPLETED row is untouched and the PENDING row ends COMPLETED or FAILED. -/
theorem process_course_content_monotone_witness :
    (0 < [completedVideo, pendingVideo].length ∧
     0 < (process_course_content (fun _ => .error "TypeError")
        [completedVideo, pendingVideo]).length) ∧
    ([completedVideo, pendingVideo][0].analysis_status ≠ .PENDING →
      (process_course_content (fun _ => .error "TypeError")
        [completedVideo, pendingVideo])[0] =
          [completedVideo, pendingVideo][0]) :=
  ⟨⟨by decide, by decide⟩,
    (process_course_content_monotone (fun _ => .error "TypeError")
      [completedVideo, pendingVideo] 0 (by decide) (by decide)).1⟩

/-- The claim's notion of violations for one video: a missing progress
record is one violation; otherwise an unwatched status and an unpassed quiz
are each one violation. -/
def violationCount (lookup : Nat → Option VideoProgress) (v : Video) : Nat :=
  match lookup v.id with
  | none => 1
  | some p =>
    (if p.watch_status ≠ WatchStatus.WATCHED then 1 else 0) +
    (if p.is_quiz_passed = false then 1 else 0)

/-- Each video contributes exactly one reason per violation. -/
theorem videoReasons_length (lookup : Nat → Option VideoProgress)
    (v : Video) :
    (videoReasons lookup v).length = violationCount lookup v := by
  unfold videoReasons violationCount
  cases lookup v.id with
  | none => rfl
  | some p =>
    cases hw : p.watch_status <;> cases hq : p.is_quiz_passed <;>
      simp [hw, hq]

/-- The reason accumulator of the eligibility loop grows by exactly the
per-video reason lists, in order. -/
theorem eligibility_foldl_length (lookup : Nat → Option VideoProgress)
    (vs : List Video) (acc : List String) :
    (vs.foldl (fun acc v => acc ++ videoReasons lookup v) acc).length =
      acc.length + (vs.map (violationCount lookup)).sum := by
  induction vs generalizing acc with
  | nil => simp
  | cons v rest ih =>
    simp only [List.foldl_cons, List.map_cons, List.sum_cons]
    rw [ih]
    simp [videoReasons_length]
    omega

/-- C6: for an enrolled user and a non-empty course, the evaluator walks
every video of the course and accumulates one reason per violation —
missing progress record, not WATCHED, quiz not passed — rather than
stopping at the first, and reports eligible exactly when zero violations
accumulated over all videos. -/
theorem check_eligibility_reasons_complete (user_id playlist_id : Nat)
    (db : DB) (enrollment : Enrollment)
    (henr : db.enrollments.find?
        (fun e => e.user_id == user_id && e.playlist_id == playlist_id) =
      some enrollment)
    (hvids : db.videos.filter (fun v => v.playlist_id == playlist_id) ≠ []) :
    (check_eligibility user_id playlist_id db).2.length =
      ((db.videos.filter (fun v => v.playlist_id == playlist_id)).map
        (violationCount (progressLookup
          (db.progress.filter
            (fun p => p.enrollment_id == enrollment.id))))).sum ∧
    ((check_eligibility user_id playlist_id db).1 = true ↔
      ((db.videos.filter (fun v => v.playlist_id == playlist_id)).map
        (violationCount (progressLookup
          (db.progress.filter
            (fun p => p.enrollment_id == enrollment.id))))).sum = 0) := by
  unfold check_eligibility
  rw [henr]
  simp only
  rw [if_neg (by simpa [List.isEmpty_iff] using hvids)]
  have hlen := eligibility_foldl_length
    (progressLookup (db.progress.filter
      (fun p => p.enrollment_id == enrollment.id)))
    (db.videos.filter (fun v => v.playlist_id == playlist_id)) []
  simp only [List.length_nil, Nat.zero_add] at hlen
  by_cases hm : ((db.videos.filter (fun v => v.playlist_id == playlist_id)).foldl
      (fun acc v => acc ++ videoReasons (progressLookup
        (db.progress.filter (fun p => p.enrollment_id == enrollment.id))) v)
      []).isEmpty = true
  · rw [if_neg (by simp [hm])]
    have hnil := List.isEmpty_iff.mp hm
    constructor
    · simpa [hnil] using hlen
    · rw [← hlen, hnil]
      simp
  · rw [if_pos (by simp [hm])]
    constructor
    · exact hlen
    · rw [← hlen]
      have : ((db.videos.filter (fun v => v.playlist_id == playlist_id)).foldl
          (fun acc v => acc ++ videoReasons (progressLookup
            (db.progress.filter
              (fun p => p.enrollment_id == enrollment.id))) v)
          []) ≠ [] := by
        simpa [List.isEmpty_iff] using hm
      simp only [Bool.false_eq_true, false_iff]
      intro hzero
      exact this (List.eq_nil_of_length_eq_zero hzero)

/-- The three-video course of the claim: video 1 fully done, video 2
watched-in-progress with its quiz passed, video 3 watched with its quiz not
passed. -/
def enrollmentB : Enrollment :=
  { id := 10, user_id := 1, playlist_id := 1, is_completed := false,
    certificate_url := none }

def mkCourseVideo (vid : Nat) (title : String) : Video :=
  { id := vid, playlist_id := 1, youtube_video_id := "yt", title := title,
    duration_seconds := 60, analysis_status := .COMPLETED,
    transcript_text := none, has_quiz := true, quiz_data := none }

def dbThreeVideos : DB :=
  { playlists := [{ id := 1, title := "Course" }]
    videos := [mkCourseVideo 1 "A", mkCourseVideo 2 "B", mkCourseVideo 3 "C"]
    enrollments := [enrollmentB]
    progress :=
      [{ enrollment_id := 10, video_id := 1, watch_status := .WATCHED,
         is_quiz_passed := true },
       { enrollment_id := 10, video_id := 2, watch_status := .IN_PROGRESS,
         is_quiz_passed := true },
       { enrollment_id := 10, video_id := 3, watch_status := .WATCHED,
         is_quiz_passed := false }]
    certificates := [] }

/-- C6 witness: on the three-video course where video 2 is unwatched and
the quiz of video 3 is unpassed, the evaluator reports ineligible with exactly
2 reasons. -/
theorem check_eligibility_reasons_complete_witness :
    (dbThreeVideos.enrollments.find?
        (fun e => e.user_id == 1 && e.playlist_id == 1) = some enrollmentB ∧
      dbThreeVideos.videos.filter (fun v => v.playlist_id == 1) ≠ []) ∧
    (check_eligibility 1 1 dbThreeVideos).2.length =
      ((dbThreeVideos.videos.filter (fun v => v.playlist_id == 1)).map
        (violationCount (progressLookup
          (dbThreeVideos.progress.filter
            (fun p => p.enrollment_id == enrollmentB.id))))).sum ∧
    (check_eligibility 1 1 dbThreeVideos).2.length = 2 ∧
    (check_eligibility 1 1 dbThreeVideos).1 = false :=
  ⟨⟨by decide, by decide⟩,
    (check_eligibility_reasons_complete 1 1 dbThreeVideos enrollmentB
      (by decide) (by decide)).1,
    by decide, by decide⟩

/-- C2: certificate issuance is idempotent.  (a) Whenever a certificate for
`(user, course)` already exists, `issue_certificate` returns it unchanged,
does not evaluate eligibility and does not invoke the renderer/uploader.
(b) Hence two sequential calls return the identical certificate (same
identifier), the second call performs no render/upload and leaves the
database unchanged — across the two calls at most the first one renders. -/
theorem issue_certificate_idempotent :
    (∀ (ru : Except String String) (u : User) (pid fid now : Nat) (db : DB)
        (c0 : Certificate),
      db.certificates.find?
          (fun c => c.user_id == u.id && c.playlist_id == pid) = some c0 →
      issue_certificate ru u pid fid now db =
        { db := db, outcome := .issued c0,
          eligibility_checked := false, render_invoked := false }) ∧
    (∀ (r1 r2 : Except String String) (u : User)
        (pid fid1 fid2 t1 t2 : Nat) (db db1 : DB) (c : Certificate)
        (e b : Bool),
      issue_certificate r1 u pid fid1 t1 db =
        { db := db1, outcome := .issued c,
          eligibility_checked := e, render_invoked := b } →
      issue_certificate r2 u pid fid2 t2 db1 =
        { db := db1, outcome := .issued c,
          eligibility_checked := false, render_invoked := false }) := by
  have key : ∀ (ru : Except String String) (u : User) (pid fid now : Nat)
      (db : DB) (c0 : Certificate),
      db.certificates.find?
          (fun c => c.user_id == u.id && c.playlist_id == pid) = some c0 →
      issue_certificate ru u pid fid now db =
        { db := db, outcome := .issued c0,
          eligibility_checked := false, render_invoked := false } := by
    intro ru u pid fid now db c0 h
    unfold issue_certificate
    rw [h]
  refine ⟨key, ?_⟩
  intro r1 r2 u pid fid1 fid2 t1 t2 db db1 c e b h
  cases hfind : db.certificates.find?
      (fun cc => cc.user_id == u.id && cc.playlist_id == pid) with
  | some c0 =>
    rw [key r1 u pid fid1 t1 db c0 hfind] at h
    simp only [IssueResult.mk.injEq, IssueOutcome.issued.injEq] at h
    obtain ⟨hdb, hc, -, -⟩ := h
    subst hdb
    subst hc
    exact key r2 u pid fid2 t2 db c0 hfind
  | none =>
    unfold issue_certificate at h
    rw [hfind] at h
    by_cases helig : (check_eligibility u.id pid db).1 = true
    · rw [if_neg (by simp [helig])] at h
      cases hpl : db.playlists.find? (fun p => p.id == pid) with
      | none =>
        rw [hpl] at h
        simp only [IssueResult.mk.injEq] at h
        exact absurd h.2.1 (by simp)
      | some p =>
        rw [hpl] at h
        cases r1 with
        | error msg =>
          simp only [IssueResult.mk.injEq] at h
          exact absurd h.2.1 (by simp)
        | ok url =>
          simp only [IssueResult.mk.injEq, IssueOutcome.issued.injEq] at h
          obtain ⟨hdb, hc, -, -⟩ := h
          subst hdb
          subst hc
          refine key r2 u pid fid2 t2 _ _ ?_
          simp only [List.find?_append, hfind, List.find?_cons]
          simp
    · rw [if_pos (by simp [helig])] at h
      simp only [IssueResult.mk.injEq] at h
      exact absurd h.2.1 (by simp)

def userA : User := { id := 1, full_name := "Ada" }

def certExisting : Certificate :=
  { id := 77, user_id := 1, playlist_id := 1, issued_at := 5,
    pdf_url := some "https://cdn/cert.pdf" }

def dbWithCert : DB :=
  { playlists := [{ id := 1, title := "Course" }]
    videos := []
    enrollments := []
    progress := []
    certificates := [certExisting] }

/-- C2 witness: with an existing certificate in the store, issuance returns
it unchanged with no eligibility check and no render. -/
theorem issue_certificate_idempotent_witness :
    dbWithCert.certificates.find?
        (fun c => c.user_id == userA.id && c.playlist_id == 1) =
      some certExisting ∧
    issue_certificate (.ok "https://cdn/other.pdf") userA 1 99 42 dbWithCert =
      { db := dbWithCert, outcome := .issued certExisting,
        eligibility_checked := false, render_invoked := false } :=
  ⟨by decide,
    issue_certificate_idempotent.1 (.ok "https://cdn/other.pdf") userA 1 99 42
      dbWithCert certExisting (by decide)⟩

/-- C4: when the render/upload step fails for a user with no existing
certificate who passed the eligibility check, the whole operation fails
with that error and the database is returned unchanged: the certificate
row staged before the render step does not survive and no enrollment (its
`is_completed` flag and certificate URL included) is modified. -/
theorem issue_certificate_render_failure_nothing_persisted
    (u : User) (pid fid now : Nat) (db : DB) (e : String) (p : Playlist)
    (hnone : db.certificates.find?
        (fun c => c.user_id == u.id && c.playlist_id == pid) = none)
    (helig : (check_eligibility u.id pid db).1 = true)
    (hpl : db.playlists.find? (fun q => q.id == pid) = some p) :
    issue_certificate (.error e) u pid fid now db =
      { db := db, outcome := .error e,
        eligibility_checked := true, render_invoked := true } := by
  unfold issue_certificate
  rw [hnone]
  rw [if_neg (by simp [helig])]
  rw [hpl]

/-- A store in which user 1 passes eligibility for course 1 and holds no
certificate yet. -/
def dbEligible : DB :=
  { playlists := [{ id := 1, title := "Course" }]
    videos := [mkCourseVideo 1 "A"]
    enrollments := [enrollmentB]
    progress := [{ enrollment_id := 10, video_id := 1,
                   watch_status := .WATCHED, is_quiz_passed := true }]
    certificates := [] }

/-- C4 witness: a failing upload on an eligible user leaves the store
unchanged. -/
theorem issue_certificate_render_failure_witness :
    (dbEligible.certificates.find?
        (fun c => c.user_id == userA.id && c.playlist_id == 1) = none ∧
      (check_eligibility userA.id 1 dbEligible).1 = true ∧
      dbEligible.playlists.find? (fun q => q.id == 1) =
        some { id := 1, title := "Course" }) ∧
    issue_certificate (.error "upload failed") userA 1 99 42 dbEligible =
      { db := dbEligible, outcome := .error "upload failed",
        eligibility_checked := true, render_invoked := true } :=
  ⟨⟨by decide, by decide, by decide⟩,
    issue_certificate_render_failure_nothing_persisted userA 1 99 42
      dbEligible "upload failed" { id := 1, title := "Course" }
      (by decide) (by decide) (by decide)⟩

/-- C5: when no certificate exists and the eligibility evaluator reports
ineligible, issuance fails with a structured error carrying the full
`missing` list, the database is unchanged (no certificate row created) and
the renderer/uploader is never invoked. -/
theorem issue_certificate_ineligible_no_side_effects
    (ru : Except String String) (u : User) (pid fid now : Nat) (db : DB)
    (missing : List String)
    (hnone : db.certificates.find?
        (fun c => c.user_id == u.id && c.playlist_id == pid) = none)
    (helig : check_eligibility u.id pid db = (false, missing)) :
    issue_certificate ru u pid fid now db =
      { db := db, outcome := .ineligible missing,
        eligibility_checked := true, render_invoked := false } := by
  unfold issue_certificate
  rw [hnone, helig]
  rfl

/-- C5 witness: on the three-video course with two violations, issuance
reports the two missing requirements and touches nothing. -/
theorem issue_certificate_ineligible_witness :
    (dbThreeVideos.certificates.find?
        (fun c => c.user_id == userA.id && c.playlist_id == 1) = none ∧
      check_eligibility userA.id 1 dbThreeVideos =
        (false, [reason_not_watched "B", reason_quiz_not_passed "C"])) ∧
    issue_certificate (.ok "https://cdn/cert.pdf") userA 1 99 42
        dbThreeVideos =
      { db := dbThreeVideos,
        outcome := .ineligible [reason_not_watched "B",
                                reason_quiz_not_passed "C"],
        eligibility_checked := true, render_invoked := false } :=
  ⟨⟨by decide, by decide⟩,
    issue_certificate_ineligible_no_side_effects (.ok "https://cdn/cert.pdf")
      userA 1 99 42 dbThreeVideos
      [reason_not_watched "B", reason_quiz_not_passed "C"]
      (by decide) (by decide)⟩

end CredLyse
